import Mathlib

/-!
Shallow embedding of the training-loop orchestration in `src/script/train.py`:
the `validation` function (lines 46-77) and the `train` function (lines 80-214)
of the temporally-grounding-network training script.

The neural model, the optimizer's tensor state, the dataset iterators and the
metric utilities are opaque external collaborators of the loop; they enter the
embedding only through the observable quantities the loop reads from them:
per-batch losses and batch sizes (`batch_loss.item()`, `len(textual_data)`),
per-validation scores (the return value of `validation`), and the learning
rate stored in the optimizer's parameter group.  Floats are embedded as `ℚ`,
Python ints as `ℕ`.  `exit(0)` and the uncaught-exception paths are embedded
as an `Except` halt value.
-/

namespace TrainPy

/-- Configuration options read from the `args` dictionary in `train`
(`src/script/train.py` lines 81-87 and, inside the loop, lines 185, 189, 192,
196): `--max-iter`, `--valid-niter`, `--log-every`, `--patience`,
`--max-num-trial`, `--lr` and `--lr-decay`. -/
structure Config where
  maxIter : ℕ
  validNiter : ℕ
  logEvery : ℕ
  patienceLimit : ℕ
  maxNumTrial : ℕ
  lr : ℚ
  lrDecay : ℚ
  deriving DecidableEq

/-- Content of the model checkpoint file written by `model.save(model_save_path)`
(line 183): tagged with the training iteration at which it was written and the
validation score that triggered the write. -/
structure ModelCkpt where
  iter : ℕ
  score : ℚ
  deriving DecidableEq

/-- Content of the optimizer checkpoint file written by
`torch.save(optimizer.state_dict(), model_save_path + '.optim')` (line 184):
tagged with the training iteration at which it was written; the optimizer
state includes the learning rate of its parameter group. -/
structure OptimCkpt where
  iter : ℕ
  lr : ℚ
  deriving DecidableEq

/-- The mutable state manipulated by the validation-checkpoint block of `train`
(lines 163-210): the history `val_scores`, the `patience` and `num_trial`
counters, the learning rate currently stored in `optimizer.param_groups[0]`,
and the two checkpoint files on disk (`none` = file absent). -/
structure ValState where
  valScores : List ℚ
  patience : ℕ
  numTrial : ℕ
  optLr : ℚ
  modelFile : Option ModelCkpt
  optimFile : Option OptimCkpt
  deriving DecidableEq

/-- Result of one execution of the validation-checkpoint block: the successor
state plus the observable effects of the block — whether the two checkpoint
files were written (`saved`), which checkpoint pair was read back from disk
(`reloaded`), how many times the learning rate was multiplied by the decay
factor (`decays`), whether `exit(0)` was called (`exited`), and whether
`torch.load` was attempted on a missing file (`loadFail`). -/
structure ValResult where
  st : ValState
  saved : Bool
  reloaded : Option (ModelCkpt × OptimCkpt)
  decays : ℕ
  exited : Bool
  loadFail : Bool
  deriving DecidableEq

/-- `np.max` on a list of scores, as used at line 177; `np.max` faults on an
empty array, but line 177 only evaluates it when `val_scores` is non-empty,
so the default value for `[]` is never observable. -/
def npMax : List ℚ → ℚ
  | [] => 0
  | x :: xs => xs.foldl max x

/-- Line 177: `is_better = len(val_scores) == 0 or val_score > np.max(val_scores)`. -/
def isBetter (s : ValState) (score : ℚ) : Bool :=
  s.valScores.isEmpty || decide (npMax s.valScores < score)

/-- The validation-checkpoint block of `train` (lines 177-210), executed when
`iteration % valid_niter == 0`, as a function of the iteration number, the
current state and the fresh validation score.  Line-by-line:
`val_scores.append(val_score)`; if `is_better` reset patience and write both
checkpoint files; otherwise, if `patience < int(args['--patience'])`,
increment patience, and if it just reached the limit increment `num_trial`,
call `exit(0)` when `num_trial == int(args['--max-num-trial'])`, otherwise
compute `lr = optimizer.param_groups[0]['lr'] * lr_decay` (line 196, from the
optimizer's current rate), reload model and optimizer state from the two
checkpoint files (`torch.load` faults if they are absent), overwrite the
loaded optimizer's rate with the decayed `lr` (lines 207-208) and reset
patience to zero. -/
def valStep (cfg : Config) (iteration : ℕ) (s : ValState) (score : ℚ) : ValResult :=
  let scores' := s.valScores ++ [score]
  if isBetter s score then
    let ib : ValState :=
      { s with
        valScores := scores'
        patience := 0
        modelFile := some ⟨iteration, score⟩
        optimFile := some ⟨iteration, s.optLr⟩ }
    { st := ib, saved := true, reloaded := none, decays := 0,
      exited := false, loadFail := false }
  else if s.patience < cfg.patienceLimit then
    if s.patience + 1 = cfg.patienceLimit then
      if s.numTrial + 1 = cfg.maxNumTrial then
        let es : ValState :=
          { s with
            valScores := scores'
            patience := s.patience + 1
            numTrial := s.numTrial + 1 }
        { st := es, saved := false, reloaded := none, decays := 0,
          exited := true, loadFail := false }
      else
        match s.modelFile, s.optimFile with
        | some m, some o =>
          let rl : ValState :=
            { s with
              valScores := scores'
              patience := 0
              numTrial := s.numTrial + 1
              optLr := s.optLr * cfg.lrDecay }
          { st := rl, saved := false, reloaded := some (m, o), decays := 1,
            exited := false, loadFail := false }
        | _, _ =>
          let lf : ValState :=
            { s with
              valScores := scores'
              patience := s.patience + 1
              numTrial := s.numTrial + 1 }
          { st := lf, saved := false, reloaded := none, decays := 0,
            exited := false, loadFail := true }
    else
      let hp : ValState := { s with valScores := scores', patience := s.patience + 1 }
      { st := hp, saved := false, reloaded := none, decays := 0,
        exited := false, loadFail := false }
  else
    { st := { s with valScores := scores' }, saved := false, reloaded := none,
      decays := 0, exited := false, loadFail := false }

/-- Initial validation-checkpoint state (lines 119-120 and 110): empty score
history, zero patience and trial counters, optimizer created with rate
`float(args['--lr'])`, no checkpoint files on disk. -/
def initValState (cfg : Config) : ValState :=
  { valScores := [], patience := 0, numTrial := 0, optLr := cfg.lr,
    modelFile := none, optimFile := none }

/-- The whole mutable state of the training loop (lines 116-125 plus the
validation-checkpoint state): the iteration counter, the two pairs of loss /
sample accumulators, and the scalar series written by
`writer.add_scalar('Loss/train', report_loss/report_samples, iteration)`
(line 158), recorded as (iteration, reported value) pairs. -/
structure LoopState where
  iteration : ℕ
  cumSamples : ℕ
  reportSamples : ℕ
  reportLoss : ℚ
  cumLoss : ℚ
  logs : List (ℕ × ℚ)
  vs : ValState
  deriving DecidableEq

/-- Initial loop state (lines 116-125). -/
def initLoopState (cfg : Config) : LoopState :=
  { iteration := 0, cumSamples := 0, reportSamples := 0, reportLoss := 0,
    cumLoss := 0, logs := [], vs := initValState cfg }

/-- The two ways the loop body terminates the process early: `exit(0)` at
line 194, or an uncaught `torch.load` failure on a missing checkpoint file
(lines 199, 204), which kills the process with a non-zero status. -/
inductive Halt where
  | earlyStop (st : LoopState)
  | loadFailure (st : LoopState)
  deriving DecidableEq

/-- The loop state at the moment the process halted. -/
def Halt.st : Halt → LoopState
  | .earlyStop st => st
  | .loadFailure st => st

/-- Process exit code of a halt: `exit(0)` gives status 0; an uncaught
exception gives the interpreter's status 1. -/
def Halt.code : Halt → ℕ
  | .earlyStop _ => 0
  | .loadFailure _ => 1

/-- Outcome of running part of the loop: either the loop state after the run,
or a halt of the whole process. -/
abbrev RunResult := Except Halt LoopState

/-- The loop state carried by a run outcome (final state, or state at halt). -/
def resSt : RunResult → LoopState
  | .ok st => st
  | .error h => h.st

/-- The exit code when the run halted the process, `none` when it ran to
completion. -/
def haltedWithCode : RunResult → Option ℕ
  | .ok _ => none
  | .error h => some h.code

/-- Whether the run died attempting to reload a missing checkpoint file. -/
def isLoadFail : RunResult → Bool
  | .error (.loadFailure _) => true
  | _ => false

/-- One iteration of the inner `for` loop of `train` (lines 127-211), given
the per-iteration batch losses (`batch_loss.item()`) and batch sizes
(`len(textual_data)`) indexed by the global iteration counter, and the
validation scores indexed by the number of validations performed so far.
In order: accumulate the four loss/sample accumulators (lines 143-146); if
`iteration % log_every == 0`, emit `report_loss / report_samples` to the
scalar series and zero the report accumulators (lines 151-161); if
`iteration % valid_niter == 0`, zero the cumulative accumulators
(lines 168-169) and run the validation-checkpoint block; finally
`iteration += 1` (line 211). -/
def trainIter (cfg : Config) (losses : ℕ → ℚ) (sizes : ℕ → ℕ) (valO : ℕ → ℚ)
    (st : LoopState) : RunResult :=
  let i := st.iteration
  let st1 : LoopState :=
    { st with cumSamples := st.cumSamples + sizes i,
              reportSamples := st.reportSamples + sizes i,
              reportLoss := st.reportLoss + losses i,
              cumLoss := st.cumLoss + losses i }
  let st2 : LoopState :=
    if i % cfg.logEvery = 0 then
      { st1 with logs := st1.logs ++ [(i, st1.reportLoss / (st1.reportSamples : ℚ))],
                 reportSamples := 0, reportLoss := 0 }
    else st1
  if i % cfg.validNiter = 0 then
    let st3 : LoopState := { st2 with cumSamples := 0, cumLoss := 0 }
    let r := valStep cfg i st3.vs (valO st3.vs.valScores.length)
    if r.exited then
      .error (.earlyStop { st3 with vs := r.st })
    else if r.loadFail then
      .error (.loadFailure { st3 with vs := r.st })
    else
      .ok { st3 with vs := r.st, iteration := i + 1 }
  else
    .ok { st2 with iteration := i + 1 }

/-- Run `n` consecutive iterations of the inner `for` loop (one epoch of
`dataset.data_iter(batch_size, 'train')` yields a fixed number of batches),
stopping early if an iteration halts the process. -/
def runIters (cfg : Config) (losses : ℕ → ℚ) (sizes : ℕ → ℕ) (valO : ℕ → ℚ) :
    ℕ → LoopState → RunResult
  | 0, st => .ok st
  | n + 1, st =>
    match trainIter cfg losses sizes valO st with
    | .ok st' => runIters cfg losses sizes valO n st'
    | .error h => .error h

/-- The outer `while iteration <= max_iter` loop of `train` (lines 126-211):
the condition is evaluated only between epochs; each epoch runs `nBatches`
inner iterations.  `fuel` bounds the number of epochs the embedding unfolds
(the Python loop spins forever when the training split yields no batches). -/
def trainLoop (cfg : Config) (nBatches : ℕ) (losses : ℕ → ℚ) (sizes : ℕ → ℕ)
    (valO : ℕ → ℚ) : ℕ → LoopState → RunResult
  | 0, st => .ok st
  | fuel + 1, st =>
    if st.iteration ≤ cfg.maxIter then
      match runIters cfg losses sizes valO nBatches st with
      | .ok st' => trainLoop cfg nBatches losses sizes valO fuel st'
      | .error h => .error h
    else
      .ok st

/-- Checkpoint-consistency invariant of the best-so-far tracking: the model
file and the optimizer file are either both absent or both present with the
same write iteration, and as soon as at least one validation has run the
model file is present and records the maximum score observed so far. -/
def ckptInv (s : ValState) : Bool :=
  (match s.modelFile, s.optimFile with
    | some m, some o => decide (m.iter = o.iter)
    | none, none => true
    | _, _ => false) &&
  (s.valScores.isEmpty ||
    (match s.modelFile with
      | some m => decide (m.score = npMax s.valScores)
      | none => false))

/-- Weaker file-existence invariant: once at least one validation has run,
both checkpoint files exist on disk. -/
def filesInv (s : ValState) : Bool :=
  s.valScores.isEmpty || (s.modelFile.isSome && s.optimFile.isSome)

/-- Run the validation-checkpoint block over a whole sequence of
(iteration, score) pairs, stopping at the state in which the process halted
if a step exits or faults. -/
def runValSeq (cfg : Config) : List (ℕ × ℚ) → ValState → ValState
  | [], s => s
  | (i, sc) :: rest, s =>
    let r := valStep cfg i s sc
    if r.exited || r.loadFail then r.st else runValSeq cfg rest r.st

/-- Configuration of the early-stop example of the spec: `patience = 2`,
`max-num-trial = 1`, validation after every iteration. -/
def cfgStop : Config :=
  { maxIter := 100, validNiter := 1, logEvery := 1, patienceLimit := 2,
    maxNumTrial := 1, lr := 1/1000, lrDecay := 1/2 }

/-- The validation scores of the early-stop example: 0.3, 0.2, 0.1. -/
def scoresStop : ℕ → ℚ := fun k => [3/10, 1/5, 1/10].getD k 0

/-- Full run of the training loop on the early-stop example (ample fuel,
10 batches per epoch, unit batch losses and sizes). -/
def runStop : RunResult :=
  trainLoop cfgStop 10 (fun _ => 1) (fun _ => 1) scoresStop 50 (initLoopState cfgStop)

/-- Configuration exhibiting the iteration-bound overshoot: `max-iter = 1`
with the default-shaped log/validation intervals. -/
def cfgOver : Config :=
  { maxIter := 1, validNiter := 50, logEvery := 10, patienceLimit := 2,
    maxNumTrial := 3, lr := 1/1000, lrDecay := 1/2 }

/-- Run of the training loop with `max-iter = 1` on a training split of one
batch per epoch: the `while iteration <= max_iter` condition is re-evaluated
only between epochs, so the run executes iterations 0 and 1. -/
def runOver : RunResult :=
  trainLoop cfgOver 1 (fun _ => 1) (fun _ => 10) (fun _ => 1) 4 (initLoopState cfgOver)

/-- Concrete configuration with `patience = 1` used to exercise a decay
trial. -/
def cfgTrial : Config :=
  { maxIter := 100, validNiter := 1, logEvery := 1, patienceLimit := 1,
    maxNumTrial := 3, lr := 1, lrDecay := 1/2 }

/-- Concrete state just before a decay trial: one validation seen, both
checkpoint files written at iteration 0. -/
def stTrial : ValState :=
  { valScores := [3], patience := 0, numTrial := 0, optLr := 1,
    modelFile := some ⟨0, 3⟩, optimFile := some ⟨0, 1⟩ }

/-- Concrete state one non-improvement away from an early-stop trial under
`patience = 2`, `max-num-trial = 1`. -/
def stStop : ValState :=
  { valScores := [3], patience := 1, numTrial := 0, optLr := 1,
    modelFile := some ⟨0, 3⟩, optimFile := some ⟨0, 1⟩ }

/-- Concrete configuration for exercising the patience bookkeeping
(`patience = 3`). -/
def cfgPat : Config :=
  { maxIter := 100, validNiter := 1, logEvery := 1, patienceLimit := 3,
    maxNumTrial := 3, lr := 1, lrDecay := 1/2 }

/-- Concrete state with a non-empty history, used to exercise both the
improvement and the non-improvement branches of the patience bookkeeping. -/
def stPat : ValState :=
  { valScores := [2], patience := 1, numTrial := 0, optLr := 1,
    modelFile := some ⟨0, 2⟩, optimFile := some ⟨0, 1⟩ }

/-- Configuration for the loss-reporting example: log every 2 iterations,
validate every 3. -/
def cfgRep : Config :=
  { maxIter := 100, validNiter := 3, logEvery := 2, patienceLimit := 2,
    maxNumTrial := 3, lr := 1, lrDecay := 1/2 }

/-- Per-batch losses of the loss-reporting example: 2.0 at iteration 1,
4.0 elsewhere. -/
def lossesRep : ℕ → ℚ := fun n => if n = 1 then 2 else 4

/-- Per-batch sizes of the loss-reporting example: 10 samples per batch. -/
def sizesRep : ℕ → ℕ := fun _ => 10

/-- Validation scores of the loss-reporting example (never consulted between
the two log points considered). -/
def scoresRep : ℕ → ℚ := fun _ => 1

/-- Loop state at iteration 1, just after a log emission: both report
accumulators are zero. -/
def stRep : LoopState :=
  { iteration := 1, cumSamples := 10, reportSamples := 0, reportLoss := 0,
    cumLoss := 2, logs := [(0, 1/5)], vs := initValState cfgRep }

/-- Configuration used to instantiate the first-iteration behavior. -/
def cfgFirst : Config :=
  { maxIter := 10000, validNiter := 50, logEvery := 10, patienceLimit := 2,
    maxNumTrial := 3, lr := 1/1000, lrDecay := 1/2 }

/-- Concrete per-iteration batch losses used to instantiate the
first-iteration behavior. -/
def lossesFirst : ℕ → ℚ := fun _ => 2

/-- Concrete per-iteration batch sizes used to instantiate the
first-iteration behavior. -/
def sizesFirst : ℕ → ℕ := fun _ => 10

/-- Concrete validation scores used to instantiate the first-iteration
behavior. -/
def scoresFirst : ℕ → ℚ := fun _ => 3

/-- One batch drawn from `dataset.data_iter(batch_size, 'val')` inside
`validation` (line 56), reduced to the two quantities the accumulation loop
reads from it: `len(textual_data)` (line 57) and the value of
`top_n_iou(probs*mask, ...)` for the batch (line 68). -/
structure ValBatch where
  nSamples : ℕ
  score : ℚ
  deriving DecidableEq

/-- Sum of the per-batch metric scores of a validation split (`cum_score`). -/
def totalScore (batches : List ValBatch) : ℚ := (batches.map (·.score)).sum

/-- Total number of validation samples of a split (`cum_samples`). -/
def totalSamples (batches : List ValBatch) : ℕ := (batches.map (·.nSamples)).sum

/-- The accumulation-and-average core of `validation`
(`src/script/train.py` lines 52-77): `cum_score = cum_samples = 0`, then for
every batch `cum_samples += len(textual_data)` and `cum_score += score`, and
finally `return cum_score / cum_samples`.  When `cum_samples` is zero the
final division raises `ZeroDivisionError`, embedded as `none`. -/
def validationResult (batches : List ValBatch) : Option ℚ :=
  let cum := batches.foldl (fun a b => (a.1 + b.score, a.2 + b.nSamples)) ((0 : ℚ), (0 : ℕ))
  if cum.2 = 0 then none else some (cum.1 / (cum.2 : ℚ))

/-- The training/eval-mode and gradient bookkeeping of `validation`
(`src/script/train.py` lines 47, 51, 74-76): `was_training = model.training`
is recorded on entry; the batch loop runs inside `with torch.no_grad():`, so
gradient tracking is off; the function body contains no `model.eval()` call,
so `model.training` is left untouched during the loop; on exit
`if was_training: model.train()` is executed.  Given the mode flag at entry,
returns (mode during the batch loop, gradient tracking during the loop, mode
after exit), where `true` is training mode. -/
def validationModeTrace (entryMode : Bool) : Bool × Bool × Bool :=
  let was_training := entryMode
  let modeDuringLoop := entryMode
  let gradDuringLoop := false
  let modeOnExit := if was_training then true else modeDuringLoop
  (modeDuringLoop, gradDuringLoop, modeOnExit)

/-- Vocabulary objects, identified by an opaque tag. -/
abbrev Vocab := ℕ

/-- The runtime error raised by Python when a name lookup fails. -/
inductive NameErr where
  | nameError
  deriving DecidableEq

/-- Name resolution for the identifier `vocab` in the body of `validation`
(`src/script/train.py` line 60, `vocab.to_input_tensor(...)`): `vocab` is
neither a parameter nor a local of `validation`, so Python resolves it in the
module-global scope.  The module binds a global `vocab` only inside the
`if __name__ == '__main__':` block (line 222); `moduleVocab = none` models a
context with no module-level binding (e.g. `train` imported and called from
another module), in which the lookup raises `NameError`. -/
def validationVocabUsed (moduleVocab : Option Vocab) : Except NameErr Vocab :=
  match moduleVocab with
  | some v => .ok v
  | none => .error .nameError

/-- Name resolution for the identifier `vocab` in the batch-encoding path of
`train` (`src/script/train.py` line 130): `vocab` is a parameter of `train`
(line 80), which shadows any module-global binding, so the parameter is used
regardless of the global. -/
def trainVocabUsed (_moduleVocab : Option Vocab) (vocabParam : Vocab) : Vocab :=
  vocabParam

lemma foldl_max_lt_iff (sc : ℚ) (l : List ℚ) (a : ℚ) :
    List.foldl max a l < sc ↔ a < sc ∧ ∀ x ∈ l, x < sc := by
  induction l generalizing a with
  | nil => simp
  | cons b bs ih =>
    rw [List.foldl_cons, ih (max a b), max_lt_iff]
    simp only [List.mem_cons]
    constructor
    · rintro ⟨⟨ha, hb⟩, h⟩
      exact ⟨ha, fun x hx => hx.elim (fun e => e ▸ hb) (h x)⟩
    · rintro ⟨ha, h⟩
      exact ⟨⟨ha, h b (Or.inl rfl)⟩, fun x hx => h x (Or.inr hx)⟩

lemma isBetter_iff (s : ValState) (sc : ℚ) :
    isBetter s sc = true ↔ ∀ x ∈ s.valScores, x < sc := by
  cases h : s.valScores with
  | nil => simp [isBetter, h]
  | cons a as =>
    simp [isBetter, h, npMax, foldl_max_lt_iff]

lemma npMax_append (l : List ℚ) (x : ℚ) :
    npMax (l ++ [x]) = if l.isEmpty then x else max (npMax l) x := by
  cases l with
  | nil => rfl
  | cons a as =>
    simp only [List.cons_append, npMax, List.foldl_append, List.foldl_cons,
      List.foldl_nil, List.isEmpty_cons, Bool.false_eq_true, if_false]

lemma valStep_st_valScores (cfg : Config) (i : ℕ) (s : ValState) (sc : ℚ) :
    (valStep cfg i s sc).st.valScores = s.valScores ++ [sc] := by
  unfold valStep
  split_ifs <;> try rfl
  all_goals cases s.modelFile <;> cases s.optimFile <;> rfl

lemma valStep_files_of_not_better (cfg : Config) (i : ℕ) (s : ValState) (sc : ℚ)
    (hb : isBetter s sc = false) :
    (valStep cfg i s sc).st.modelFile = s.modelFile ∧
    (valStep cfg i s sc).st.optimFile = s.optimFile := by
  unfold valStep
  rw [hb]
  simp only [Bool.false_eq_true, if_false]
  split_ifs <;> try exact ⟨rfl, rfl⟩
  all_goals cases s.modelFile <;> cases s.optimFile <;> exact ⟨rfl, rfl⟩

lemma valStep_saved_eq (cfg : Config) (i : ℕ) (s : ValState) (sc : ℚ) :
    (valStep cfg i s sc).saved = isBetter s sc := by
  by_cases hb : isBetter s sc
  · simp [valStep, hb]
  · simp only [Bool.not_eq_true] at hb
    unfold valStep
    rw [hb]
    simp only [Bool.false_eq_true, if_false]
    split_ifs <;> try rfl
    all_goals cases s.modelFile <;> cases s.optimFile <;> rfl

lemma validation_foldl (batches : List ValBatch) (a : ℚ) (n : ℕ) :
    batches.foldl (fun a b => (a.1 + b.score, a.2 + b.nSamples)) (a, n)
      = (a + totalScore batches, n + totalSamples batches) := by
  induction batches generalizing a n with
  | nil => simp [totalScore, totalSamples]
  | cons b bs ih =>
    simp only [List.foldl_cons, ih, totalScore, totalSamples, List.map_cons, List.sum_cons,
      Prod.mk.injEq]
    exact ⟨by ring, by ring⟩

lemma isBetter_false_parts (s : ValState) (sc : ℚ) (hb : isBetter s sc = false) :
    s.valScores.isEmpty = false ∧ ¬ npMax s.valScores < sc := by
  unfold isBetter at hb
  rcases Bool.or_eq_false_iff.mp hb with ⟨h1, h2⟩
  exact ⟨h1, by simpa using h2⟩

lemma npMax_append_better (l : List ℚ) (x : ℚ)
    (h : l.isEmpty = true ∨ npMax l < x) : npMax (l ++ [x]) = x := by
  rw [npMax_append]
  rcases h with h | h
  · rw [if_pos h]
  · cases he : l.isEmpty with
    | true => rw [if_pos rfl]
    | false =>
      rw [if_neg Bool.false_ne_true]
      exact max_eq_right (le_of_lt h)

lemma npMax_append_not_better (l : List ℚ) (x : ℚ)
    (hne : l.isEmpty = false) (h : ¬ npMax l < x) :
    npMax (l ++ [x]) = npMax l := by
  rw [npMax_append, if_neg (by rw [hne]; exact Bool.false_ne_true)]
  exact max_eq_left (le_of_not_lt h)

lemma ckptInv_valStep (cfg : Config) (i : ℕ) (s : ValState) (sc : ℚ)
    (h : ckptInv s = true) : ckptInv (valStep cfg i s sc).st = true := by
  by_cases hb : isBetter s sc
  · have hor : s.valScores.isEmpty = true ∨ npMax s.valScores < sc := by
      unfold isBetter at hb
      rcases Bool.or_eq_true_iff.mp hb with h1 | h1
      · exact Or.inl h1
      · exact Or.inr (by simpa using h1)
    have hmax : npMax (s.valScores ++ [sc]) = sc := npMax_append_better _ _ hor
    simp [valStep, hb, ckptInv, hmax]
  · have hb' : isBetter s sc = false := by simpa using hb
    obtain ⟨hne, hnlt⟩ := isBetter_false_parts s sc hb'
    obtain ⟨hm, ho⟩ := valStep_files_of_not_better cfg i s sc hb'
    have hv := valStep_st_valScores cfg i s sc
    simp only [ckptInv, Bool.and_eq_true] at h
    obtain ⟨h1, h2⟩ := h
    rw [hne, Bool.false_or] at h2
    simp only [ckptInv, Bool.and_eq_true]
    rw [hm, ho, hv, npMax_append_not_better _ _ hne hnlt]
    exact ⟨h1, by simp [h2]⟩

/-- Claim C4: the best-so-far tracking never regresses: the checkpoint pair is
written exactly when the new validation score strictly exceeds every score
seen so far; the model-parameter file and the optimizer-state file are always
both present or both absent and, when present, were written at the same
training iteration; and whenever at least one validation has run, the saved
model checkpoint records the maximum score observed so far.  The invariant
holds initially, is preserved by every validation-checkpoint step, and hence
holds after running any sequence of validation scores from the start. -/
theorem best_checkpoint_never_regresses :
    (∀ cfg i s sc, ((valStep cfg i s sc).saved = true ↔ ∀ x ∈ s.valScores, x < sc)) ∧
    (∀ cfg i s sc, ckptInv s = true → ckptInv (valStep cfg i s sc).st = true) ∧
    (∀ cfg seq, ckptInv (runValSeq cfg seq (initValState cfg)) = true) := by
  refine ⟨fun cfg i s sc => ?_, fun cfg i s sc h => ckptInv_valStep cfg i s sc h,
    fun cfg seq => ?_⟩
  · rw [valStep_saved_eq]
    exact isBetter_iff s sc
  · have hrun : ∀ s, ckptInv s = true → ckptInv (runValSeq cfg seq s) = true := by
      induction seq with
      | nil => exact fun s h => h
      | cons p rest ih =>
        intro s h
        obtain ⟨i, sc⟩ := p
        rw [runValSeq]
        split_ifs with hx
        · exact ckptInv_valStep cfg i s sc h
        · exact ih _ (ckptInv_valStep cfg i s sc h)
    exact hrun _ rfl

/-- Witness for claim C4: the invariant is preserved at a concrete state and
holds after a concrete score sequence with an improvement, a regression and a
new best; at that state the checkpoint write happens exactly on strict
improvement. -/
theorem best_checkpoint_never_regresses_witness :
    ckptInv (valStep cfgPat 3 stPat 3).st = true ∧
    ckptInv (runValSeq cfgPat [(0, 3), (1, 2), (2, 4)] (initValState cfgPat)) = true ∧
    ((valStep cfgPat 3 stPat 3).saved = true ↔ ∀ x ∈ stPat.valScores, x < 3) :=
  ⟨best_checkpoint_never_regresses.2.1 cfgPat 3 stPat 3 (by decide),
   best_checkpoint_never_regresses.2.2 cfgPat [(0, 3), (1, 2), (2, 4)],
   best_checkpoint_never_regresses.1 cfgPat 3 stPat 3⟩

/-- Claim C3: the claim says every invocation of `validation` runs with the
model in evaluation mode; the code (lines 47-76) records `was_training` and
conditionally restores `model.train()` on exit, but contains no `model.eval()`
call, so on the actual call path (the model is in training mode when `train`
invokes `validation`) the model stays in training mode throughout the
validation batch loop.  Gradient tracking is disabled and the entry mode is
restored on exit, as claimed. -/
theorem validation_runs_in_training_mode :
    (validationModeTrace true).1 = true ∧
    (validationModeTrace true).2.1 = false ∧
    (validationModeTrace true).2.2 = true := by
  exact ⟨rfl, rfl, rfl⟩

/-- Claim C8: on a non-empty validation split the `validation` procedure
returns the accumulated metric divided by the total number of validation
samples, and on an empty split the final `cum_score / cum_samples` is a
division by zero (embedded as `none`), so the caller must supply a non-empty
split. -/
theorem validation_average_of_nonempty (bs : List ValBatch)
    (h : totalSamples bs ≠ 0) :
    validationResult bs = some (totalScore bs / (totalSamples bs : ℚ)) ∧
    validationResult [] = none := by
  refine ⟨?_, rfl⟩
  simp only [validationResult, validation_foldl, zero_add, h, if_false]

/-- Witness for claim C8 at a concrete one-batch split of 10 samples with
batch score 2. -/
theorem validation_average_witness :
    validationResult [⟨10, 2⟩] = some (totalScore [⟨10, 2⟩] / (totalSamples [⟨10, 2⟩] : ℚ)) ∧
    validationResult [] = none :=
  validation_average_of_nonempty [⟨10, 2⟩] (by decide)

lemma filesInv_valStep (cfg : Config) (i : ℕ) (s : ValState) (sc : ℚ)
    (h : filesInv s = true) :
    filesInv (valStep cfg i s sc).st = true ∧ (valStep cfg i s sc).loadFail = false := by
  by_cases hb : isBetter s sc
  · simp [valStep, hb, filesInv]
  · have hb' : isBetter s sc = false := by simpa using hb
    obtain ⟨hne, hnlt⟩ := isBetter_false_parts s sc hb'
    rw [filesInv, hne, Bool.false_or, Bool.and_eq_true] at h
    obtain ⟨m, hm⟩ := Option.isSome_iff_exists.mp h.1
    obtain ⟨o, ho⟩ := Option.isSome_iff_exists.mp h.2
    unfold valStep
    rw [hb', hm, ho]
    simp only [Bool.false_eq_true, if_false]
    split_ifs <;> simp [filesInv, hm, ho]

lemma trainIter_filesInv (cfg : Config) (L : ℕ → ℚ) (S : ℕ → ℕ) (V : ℕ → ℚ)
    (st : LoopState) (h : filesInv st.vs = true) :
    isLoadFail (trainIter cfg L S V st) = false ∧
    filesInv (resSt (trainIter cfg L S V st)).vs = true := by
  unfold trainIter
  by_cases hv : st.iteration % cfg.validNiter = 0
  · by_cases hl : st.iteration % cfg.logEvery = 0 <;>
    · simp only [hv, hl, if_true, if_false, Bool.false_eq_true, reduceIte]
      obtain ⟨hInv, hLF⟩ := filesInv_valStep cfg st.iteration st.vs
        (V st.vs.valScores.length) h
      by_cases hx : (valStep cfg st.iteration st.vs (V st.vs.valScores.length)).exited = true
      · simp only [hx, if_true, reduceIte]
        exact ⟨rfl, hInv⟩
      · have hxf : (valStep cfg st.iteration st.vs (V st.vs.valScores.length)).exited = false := by
          simpa using hx
        simp only [hxf, hLF, if_false, Bool.false_eq_true, reduceIte]
        exact ⟨rfl, hInv⟩
  · by_cases hl : st.iteration % cfg.logEvery = 0 <;>
    · simp only [hv, hl, if_true, if_false, Bool.false_eq_true, reduceIte]
      exact ⟨rfl, h⟩

lemma runIters_filesInv (cfg : Config) (L : ℕ → ℚ) (S : ℕ → ℕ) (V : ℕ → ℚ)
    (n : ℕ) : ∀ st : LoopState, filesInv st.vs = true →
    isLoadFail (runIters cfg L S V n st) = false ∧
    filesInv (resSt (runIters cfg L S V n st)).vs = true := by
  induction n with
  | zero => exact fun st h => ⟨rfl, h⟩
  | succ n ih =>
    intro st h
    obtain ⟨h1, h2⟩ := trainIter_filesInv cfg L S V st h
    rw [runIters]
    cases hres : trainIter cfg L S V st with
    | ok st' =>
      rw [hres] at h2
      exact ih st' h2
    | error hh =>
      rw [hres] at h1 h2
      exact ⟨h1, h2⟩

lemma trainLoop_filesInv (cfg : Config) (nB : ℕ) (L : ℕ → ℚ) (S : ℕ → ℕ)
    (V : ℕ → ℚ) (fuel : ℕ) : ∀ st : LoopState, filesInv st.vs = true →
    isLoadFail (trainLoop cfg nB L S V fuel st) = false ∧
    filesInv (resSt (trainLoop cfg nB L S V fuel st)).vs = true := by
  induction fuel with
  | zero => exact fun st h => ⟨rfl, h⟩
  | succ fuel ih =>
    intro st h
    rw [trainLoop]
    by_cases hc : st.iteration ≤ cfg.maxIter
    · rw [if_pos hc]
      obtain ⟨h1, h2⟩ := runIters_filesInv cfg L S V nB st h
      cases hres : runIters cfg L S V nB st with
      | ok st' =>
        rw [hres] at h2
        exact ih st' h2
      | error hh =>
        rw [hres] at h1 h2
        exact ⟨h1, h2⟩
    · rw [if_neg hc]
      exact ⟨rfl, h⟩

lemma trainIter_first (cfg : Config) (L : ℕ → ℚ) (S : ℕ → ℕ) (V : ℕ → ℚ) :
    trainIter cfg L S V (initLoopState cfg) = .ok
      { iteration := 1, cumSamples := 0, reportSamples := 0, reportLoss := 0,
        cumLoss := 0, logs := [(0, L 0 / (S 0 : ℚ))],
        vs := { valScores := [V 0], patience := 0, numTrial := 0, optLr := cfg.lr,
                modelFile := some ⟨0, V 0⟩, optimFile := some ⟨0, cfg.lr⟩ } } := by
  simp [trainIter, initLoopState, initValState, valStep, isBetter]

lemma trainIter_no_log_no_val (cfg : Config) (L : ℕ → ℚ) (S : ℕ → ℕ) (V : ℕ → ℚ)
    (st : LoopState) (hl : st.iteration % cfg.logEvery ≠ 0)
    (hv : st.iteration % cfg.validNiter ≠ 0) :
    trainIter cfg L S V st = .ok
      { st with iteration := st.iteration + 1,
                cumSamples := st.cumSamples + S st.iteration,
                reportSamples := st.reportSamples + S st.iteration,
                reportLoss := st.reportLoss + L st.iteration,
                cumLoss := st.cumLoss + L st.iteration } := by
  simp only [trainIter, if_neg hl, if_neg hv]

lemma trainIter_log_no_val (cfg : Config) (L : ℕ → ℚ) (S : ℕ → ℕ) (V : ℕ → ℚ)
    (st : LoopState) (hl : st.iteration % cfg.logEvery = 0)
    (hv : st.iteration % cfg.validNiter ≠ 0) :
    trainIter cfg L S V st = .ok
      { st with iteration := st.iteration + 1,
                cumSamples := st.cumSamples + S st.iteration,
                cumLoss := st.cumLoss + L st.iteration,
                reportSamples := 0, reportLoss := 0,
                logs := st.logs ++ [(st.iteration,
                  (st.reportLoss + L st.iteration) /
                  ((st.reportSamples + S st.iteration : ℕ) : ℚ))] } := by
  simp only [trainIter, if_pos hl, if_neg hv]

lemma sum_range_shift {M : Type} [AddCommMonoid M] (f : ℕ → M) (i n : ℕ) :
    f i + ∑ k ∈ Finset.range n, f (i + 1 + k) = ∑ k ∈ Finset.range (n + 1), f (i + k) := by
  rw [Finset.sum_range_succ' (fun k => f (i + k)) n, add_comm]
  congr 1
  exact Finset.sum_congr rfl fun k _ => by rw [show i + 1 + k = i + (k + 1) from by omega]

lemma runIters_succ_ok (cfg : Config) (L : ℕ → ℚ) (S : ℕ → ℕ) (V : ℕ → ℚ)
    (n : ℕ) (st st' : LoopState) (h : trainIter cfg L S V st = .ok st') :
    runIters cfg L S V (n + 1) st = runIters cfg L S V n st' := by
  simp only [runIters, h]

lemma runIters_report_segment (cfg : Config) (L : ℕ → ℚ) (S : ℕ → ℕ) (V : ℕ → ℚ)
    (j : ℕ) : ∀ st : LoopState,
    (∀ k, k < j → (st.iteration + k) % cfg.logEvery ≠ 0) →
    (st.iteration + j) % cfg.logEvery = 0 →
    (∀ k, k ≤ j → (st.iteration + k) % cfg.validNiter ≠ 0) →
    runIters cfg L S V (j + 1) st = .ok
      { st with iteration := st.iteration + j + 1,
                cumSamples := st.cumSamples + ∑ k ∈ Finset.range (j + 1), S (st.iteration + k),
                cumLoss := st.cumLoss + ∑ k ∈ Finset.range (j + 1), L (st.iteration + k),
                reportSamples := 0, reportLoss := 0,
                logs := st.logs ++ [(st.iteration + j,
                  (st.reportLoss + ∑ k ∈ Finset.range (j + 1), L (st.iteration + k)) /
                  ((st.reportSamples + ∑ k ∈ Finset.range (j + 1), S (st.iteration + k) : ℕ) : ℚ))] } := by
  induction j with
  | zero =>
    intro st hnl hl hnv
    have h1 := trainIter_log_no_val cfg L S V st (by simpa using hl)
      (by simpa using hnv 0 (le_refl 0))
    rw [runIters_succ_ok cfg L S V 0 st _ h1]
    simp only [runIters]
    simp [Finset.sum_range_one]
  | succ j ih =>
    intro st hnl hl hnv
    have h1 := trainIter_no_log_no_val cfg L S V st
      (by simpa using hnl 0 (by omega)) (by simpa using hnv 0 (by omega))
    have h2 := ih
      { st with iteration := st.iteration + 1,
                cumSamples := st.cumSamples + S st.iteration,
                reportSamples := st.reportSamples + S st.iteration,
                reportLoss := st.reportLoss + L st.iteration,
                cumLoss := st.cumLoss + L st.iteration }
      (fun k hk => by
        show (st.iteration + 1 + k) % cfg.logEvery ≠ 0
        rw [show st.iteration + 1 + k = st.iteration + (k + 1) from by omega]
        exact hnl (k + 1) (by omega))
      (by
        show (st.iteration + 1 + j) % cfg.logEvery = 0
        rw [show st.iteration + 1 + j = st.iteration + (j + 1) from by omega]
        exact hl)
      (fun k hk => by
        show (st.iteration + 1 + k) % cfg.validNiter ≠ 0
        rw [show st.iteration + 1 + k = st.iteration + (k + 1) from by omega]
        exact hnv (k + 1) (by omega))
    rw [runIters_succ_ok cfg L S V (j + 1) st _ h1, h2]
    simp only [Except.ok.injEq, LoopState.mk.injEq]
    refine ⟨by omega, ?_, by trivial, by trivial, ?_, ?_, by trivial⟩
    · rw [add_assoc, sum_range_shift]
    · rw [add_assoc, sum_range_shift]
    · have e1 : st.iteration + 1 + j = st.iteration + (j + 1) := by omega
      have e2 : st.reportLoss + L st.iteration
            + ∑ k ∈ Finset.range (j + 1), L (st.iteration + 1 + k)
          = st.reportLoss + ∑ k ∈ Finset.range (j + 1 + 1), L (st.iteration + k) := by
        rw [add_assoc, sum_range_shift]
      have e3 : st.reportSamples + S st.iteration
            + ∑ k ∈ Finset.range (j + 1), S (st.iteration + 1 + k)
          = st.reportSamples + ∑ k ∈ Finset.range (j + 1 + 1), S (st.iteration + k) := by
        rw [add_assoc, sum_range_shift]
      rw [e1, e2, e3]

/-- Claim C7: starting from zeroed report accumulators, if the next `j`
iterations are not log points, the iteration after them is one, and no
validation checkpoint intervenes, then the value emitted at that log point is
exactly the sum of the per-batch losses divided by the total number of
samples of those `j + 1` batches, and both report accumulators are zero
immediately after the emission.  Instantiated at the spec's example (batch
losses 2 and 4, batch sizes 10 and 10 between the log points at iterations 0
and 2), the emitted value is exactly 3/10. -/
theorem reported_loss_is_segment_average (cfg : Config) (L : ℕ → ℚ) (S : ℕ → ℕ)
    (V : ℕ → ℚ) (st : LoopState) (j : ℕ)
    (hz1 : st.reportLoss = 0) (hz2 : st.reportSamples = 0)
    (hnl : ∀ k, k < j → (st.iteration + k) % cfg.logEvery ≠ 0)
    (hl : (st.iteration + j) % cfg.logEvery = 0)
    (hnv : ∀ k, k ≤ j → (st.iteration + k) % cfg.validNiter ≠ 0) :
    haltedWithCode (runIters cfg L S V (j + 1) st) = none ∧
    (resSt (runIters cfg L S V (j + 1) st)).logs
      = st.logs ++ [(st.iteration + j,
          (∑ k ∈ Finset.range (j + 1), L (st.iteration + k)) /
          ((∑ k ∈ Finset.range (j + 1), S (st.iteration + k) : ℕ) : ℚ))] ∧
    (resSt (runIters cfg L S V (j + 1) st)).reportLoss = 0 ∧
    (resSt (runIters cfg L S V (j + 1) st)).reportSamples = 0 ∧
    (resSt (runIters cfgRep lossesRep sizesRep scoresRep 2 stRep)).logs
      = [(0, 1/5), (2, 3/10)] := by
  rw [runIters_report_segment cfg L S V j st hnl hl hnv]
  refine ⟨rfl, ?_, rfl, rfl, ?_⟩
  · simp only [resSt, hz1, hz2, zero_add]
  · norm_num [runIters, trainIter, cfgRep, lossesRep, sizesRep, scoresRep, stRep,
      initValState, resSt]

/-- Witness for claim C7 at the spec's concrete inputs: iterations 1 and 2
with losses 2 and 4 and batch sizes 10 and 10, `log-every = 2`,
`valid-niter = 3`, starting from zeroed accumulators. -/
theorem reported_loss_is_segment_average_witness :
    haltedWithCode (runIters cfgRep lossesRep sizesRep scoresRep 2 stRep) = none ∧
    (resSt (runIters cfgRep lossesRep sizesRep scoresRep 2 stRep)).logs
      = stRep.logs ++ [(stRep.iteration + 1,
          (∑ k ∈ Finset.range 2, lossesRep (stRep.iteration + k)) /
          ((∑ k ∈ Finset.range 2, sizesRep (stRep.iteration + k) : ℕ) : ℚ))] ∧
    (resSt (runIters cfgRep lossesRep sizesRep scoresRep 2 stRep)).reportLoss = 0 ∧
    (resSt (runIters cfgRep lossesRep sizesRep scoresRep 2 stRep)).reportSamples = 0 ∧
    (resSt (runIters cfgRep lossesRep sizesRep scoresRep 2 stRep)).logs
      = [(0, 1/5), (2, 3/10)] :=
  reported_loss_is_segment_average cfgRep lossesRep sizesRep scoresRep stRep 1
    rfl rfl (by decide) (by decide) (by decide)

/-- Claim C9: on the very first training iteration, both a log emission and a
validation pass occur for every configuration (Python evaluates
`0 % log_every == 0` and `0 % valid_niter == 0`, both true whenever the
intervals are at least 1); the first validation finds an empty score history,
counts as an improvement, and writes both checkpoint files; and consequently
no run of the training loop started from the initial state ever dies
attempting to reload a missing checkpoint file. -/
theorem first_validation_saves_checkpoint (cfg : Config) (L : ℕ → ℚ) (S : ℕ → ℕ)
    (V : ℕ → ℚ) (_hl : 1 ≤ cfg.logEvery) (_hv : 1 ≤ cfg.validNiter) :
    (resSt (trainIter cfg L S V (initLoopState cfg))).logs = [(0, L 0 / (S 0 : ℚ))] ∧
    (resSt (trainIter cfg L S V (initLoopState cfg))).vs.valScores = [V 0] ∧
    (resSt (trainIter cfg L S V (initLoopState cfg))).vs.modelFile = some ⟨0, V 0⟩ ∧
    (resSt (trainIter cfg L S V (initLoopState cfg))).vs.optimFile = some ⟨0, cfg.lr⟩ ∧
    ∀ nB fuel, isLoadFail (trainLoop cfg nB L S V fuel (initLoopState cfg)) = false := by
  rw [trainIter_first]
  exact ⟨rfl, rfl, rfl, rfl,
    fun nB fuel => (trainLoop_filesInv cfg nB L S V fuel (initLoopState cfg) rfl).1⟩

/-- Witness for claim C9 at a concrete configuration (`log-every = 10`,
`valid-niter = 50`) with concrete batch losses, sizes and scores. -/
theorem first_validation_saves_checkpoint_witness :
    (resSt (trainIter cfgFirst lossesFirst sizesFirst scoresFirst
      (initLoopState cfgFirst))).vs.modelFile = some ⟨0, scoresFirst 0⟩ ∧
    isLoadFail (trainLoop cfgFirst 3 lossesFirst sizesFirst scoresFirst 20
      (initLoopState cfgFirst)) = false :=
  ⟨(first_validation_saves_checkpoint cfgFirst lossesFirst sizesFirst scoresFirst
      (by decide) (by decide)).2.2.1,
   (first_validation_saves_checkpoint cfgFirst lossesFirst sizesFirst scoresFirst
      (by decide) (by decide)).2.2.2.2 3 20⟩

/-- Claim C1: at a validation checkpoint where the patience counter reaches
the configured limit and the fired trial is not the final one (the trial at
which `num_trial == max-num-trial` instead exits the process — claim C6),
exactly one decay trial fires: the trial counter is incremented by one, the
last best model and optimizer checkpoints are read back from disk, the
learning rate is multiplied by `lr-decay` exactly once, and the patience
counter is reset to zero.  The checkpoint files must exist for the reload
(`torch.load`) to succeed; claim C9 shows they always do in a real run. -/
theorem decay_trial_fires_once (cfg : Config) (i : ℕ) (s : ValState) (sc : ℚ)
    (m : ModelCkpt) (o : OptimCkpt)
    (hnb : isBetter s sc = false)
    (hp : s.patience + 1 = cfg.patienceLimit)
    (ht : s.numTrial + 1 ≠ cfg.maxNumTrial)
    (hm : s.modelFile = some m) (ho : s.optimFile = some o) :
    (valStep cfg i s sc).st.numTrial = s.numTrial + 1 ∧
    (valStep cfg i s sc).reloaded = some (m, o) ∧
    (valStep cfg i s sc).st.optLr = s.optLr * cfg.lrDecay ∧
    (valStep cfg i s sc).decays = 1 ∧
    (valStep cfg i s sc).st.patience = 0 := by
  have hlt : s.patience < cfg.patienceLimit := by omega
  unfold valStep
  rw [hnb, hm, ho]
  simp only [Bool.false_eq_true, if_false, if_pos hlt, if_pos hp, if_neg ht]
  refine ⟨?_, ?_, ?_, ?_, ?_⟩ <;> trivial

/-- Witness for claim C1: a decay trial fired at a concrete state with
`patience` one step below the limit and a non-improving score. -/
theorem decay_trial_fires_once_witness :
    (valStep cfgTrial 7 stTrial 2).st.numTrial = stTrial.numTrial + 1 ∧
    (valStep cfgTrial 7 stTrial 2).reloaded = some (⟨0, 3⟩, ⟨0, 1⟩) ∧
    (valStep cfgTrial 7 stTrial 2).st.optLr = stTrial.optLr * cfgTrial.lrDecay ∧
    (valStep cfgTrial 7 stTrial 2).decays = 1 ∧
    (valStep cfgTrial 7 stTrial 2).st.patience = 0 :=
  decay_trial_fires_once cfgTrial 7 stTrial 2 ⟨0, 3⟩ ⟨0, 1⟩
    (by decide) (by decide) (by decide) rfl rfl

/-- Claim C5: at a validation checkpoint the patience counter resets to zero
on every strict improvement, and on a non-improving validation that leaves it
strictly below the configured limit it increments by exactly 1 (so it does
not reset); on reaching the limit the decay-trial reset of claim C1 (or the
early stop of claim C6) takes over. -/
theorem patience_bookkeeping (cfg : Config) (i : ℕ) (s : ValState) (sc : ℚ) :
    (isBetter s sc = true → (valStep cfg i s sc).st.patience = 0) ∧
    (isBetter s sc = false → s.patience + 1 < cfg.patienceLimit →
      (valStep cfg i s sc).st.patience = s.patience + 1 ∧
      (valStep cfg i s sc).st.patience ≠ 0) := by
  constructor
  · intro hb
    simp [valStep, hb]
  · intro hb hlt
    have h1 : s.patience < cfg.patienceLimit := by omega
    have h2 : ¬ s.patience + 1 = cfg.patienceLimit := by omega
    unfold valStep
    rw [hb]
    simp only [Bool.false_eq_true, if_false, if_pos h1, if_neg h2]
    refine ⟨?_, ?_⟩
    · trivial
    · show s.patience + 1 ≠ 0
      omega

/-- Witness for claim C5: at a concrete state with `patience = 1` and limit 3,
an improving score resets patience to zero and a non-improving score
increments it to 2. -/
theorem patience_bookkeeping_witness :
    (valStep cfgPat 5 stPat 3).st.patience = 0 ∧
    (valStep cfgPat 5 stPat 1).st.patience = stPat.patience + 1 :=
  ⟨(patience_bookkeeping cfgPat 5 stPat 3).1 (by decide),
   ((patience_bookkeeping cfgPat 5 stPat 1).2 (by decide) (by decide)).1⟩

/-- Claim C6: when the trial counter reaches `max-num-trial`, the process
exits with code 0 at that validation checkpoint; and on the spec's example
(patience 2, max-num-trial 1, successive scores 0.3, 0.2, 0.1, validation at
every iteration) the run halts with exit code 0 right after the third
validation — one trial fired, the iteration counter stays at 2, and no
further iterations occur despite `max-iter = 100` and ample fuel. -/
theorem early_stop_at_max_trials (cfg : Config) (i : ℕ) (s : ValState) (sc : ℚ)
    (hnb : isBetter s sc = false)
    (hp : s.patience + 1 = cfg.patienceLimit)
    (ht : s.numTrial + 1 = cfg.maxNumTrial) :
    ((valStep cfg i s sc).exited = true ∧
     (valStep cfg i s sc).st.numTrial = s.numTrial + 1) ∧
    haltedWithCode runStop = some 0 ∧
    (resSt runStop).vs.numTrial = 1 ∧
    (resSt runStop).vs.valScores = [3/10, 1/5, 1/10] ∧
    (resSt runStop).iteration = 2 := by
  refine ⟨?_, ?_, ?_, ?_, ?_⟩
  · have hlt : s.patience < cfg.patienceLimit := by omega
    unfold valStep
    rw [hnb]
    simp only [Bool.false_eq_true, if_false, if_pos hlt, if_pos hp, if_pos ht]
    exact ⟨by trivial, by trivial⟩
  all_goals
    norm_num [runStop, trainLoop, runIters, trainIter, valStep, isBetter, npMax,
      cfgStop, scoresStop, initLoopState, initValState, haltedWithCode, resSt,
      Halt.code, Halt.st]

/-- Witness for claim C6: the early-stop trial fired at a concrete state one
non-improvement below the limit with `max-num-trial = 1`. -/
theorem early_stop_at_max_trials_witness :
    (valStep cfgStop 2 stStop 1).exited = true ∧
    (valStep cfgStop 2 stStop 1).st.numTrial = stStop.numTrial + 1 :=
  (early_stop_at_max_trials cfgStop 2 stStop 1
    (by decide) (by decide) (by decide)).1

/-- Claim C2 (evaluation of the code at the failing input): with
`max-iter = 1` and a training split of one batch per epoch, the condition
`while iteration <= max_iter` is re-evaluated only between epochs, so the run
performs training iterations 0 and 1 — two gradient-step iterations,
exceeding `max-iter = 1` — and then ends normally, with no checkpoint written
beyond the best one saved at the iteration-0 validation. -/
theorem max_iter_overshoot :
    haltedWithCode runOver = none ∧
    (resSt runOver).iteration = 2 ∧
    cfgOver.maxIter = 1 ∧
    (resSt runOver).vs.modelFile = some ⟨0, 1⟩ ∧
    (resSt runOver).vs.optimFile = some ⟨0, 1/1000⟩ := by
  refine ⟨?_, ?_, ?_, ?_, ?_⟩ <;>
    norm_num [runOver, trainLoop, runIters, trainIter, valStep, isBetter, npMax,
      cfgOver, initLoopState, initValState, haltedWithCode, resSt,
      Halt.code, Halt.st]

/-- Claim C10: inside `validation` the identifier `vocab` resolves to the
module-global binding (line 60), not to a parameter, while `train` uses its
`vocab` parameter (line 130); with no module-level binding the first
validation raises `NameError`, and the vocabulary used by `validation` is the
global one, which can differ from the parameter passed to `train`. -/
theorem validation_uses_global_vocab_thm :
    validationVocabUsed none = .error .nameError ∧
    (∀ g p : Vocab, trainVocabUsed (some g) p = p ∧
      validationVocabUsed (some g) = .ok g) ∧
    (∃ g p : Vocab, g ≠ p ∧ validationVocabUsed (some g) = .ok g ∧
      trainVocabUsed (some g) p = p) := by
  exact ⟨rfl, fun g p => ⟨rfl, rfl⟩, 0, 1, by decide, rfl, rfl⟩

end TrainPy
